import Mathlib

/-!
Shallow embedding of the FirstRoundAI backend cloud function
(src/functions/src/index.ts): the interview answer evaluator
`evaluateInterviewAnswers`, the callable handler `evaluateMockInterview`,
and the notification helper `sendEvaluationNotification`.

JavaScript runtime values returned by the external model API are modelled
by a small JSON value type; the external HTTP call together with the
platform JSON.parse is abstracted as an oracle giving, per question
position, either a failure (network error, non-2xx status, a throw while
reading the response shape, or malformed JSON content) or the parsed JSON
value.  Firestore and FCM are modelled as explicit collaborators; the
handler returns its result together with the trace of store operations
and notification attempts, so that claims about reads, writes and calls
are statable.
-/

/-- A parsed JSON value (result of the platform JSON.parse). -/
inductive Json where
  | null : Json
  | bool (b : Bool) : Json
  | num (n : Int) : Json
  | str (s : String) : Json
  | arr (elems : List Json) : Json
  | obj (fields : List (String × Json)) : Json

/-- A JavaScript runtime value stored in a field after evaluation:
either a JSON value or the JavaScript undefined. -/
inductive JsVal where
  | undef : JsVal
  | val (j : Json) : JsVal

/-- One interview question, mirroring the TypeScript interface
`InterviewQuestion`.  `score` and `explanation` hold `JsVal` because the
code copies whatever the model returned into them without validation. -/
structure InterviewQuestion where
  difficulty : String
  keywords : List String
  question : String
  topic : String
  candidateAnswer : Option String
  score : JsVal
  explanation : JsVal

/-- The interview document, mirroring the TypeScript interface
`InterviewDocModel` (including the `evaludationId` typo of the source). -/
structure InterviewDocModel where
  title : String
  questionsCount : Int
  domain : Option String
  topics : String
  difficulty : String
  jobDescription : String
  resume : String
  date : String
  preciseTime : String
  analysed : Bool
  evaludationId : Option String
  interviewQuestions : Option (List InterviewQuestion)
  type : String

/-- Outcome of one external model call for one question, as seen after
the axios request and JSON.parse of the first choice message content:
`netFail` covers a thrown request (network error, non-2xx status) and a
throw while reading `response.data.choices[0].message.content`;
`badJson` is content on which JSON.parse throws; `parsed j` is a
successfully parsed value. -/
inductive ModelResponse where
  | netFail : ModelResponse
  | badJson : ModelResponse
  | parsed (j : Json) : ModelResponse

/-- First-match association lookup in a parsed JSON object (keys of a
parsed object are unique). -/
def lookupField : List (String × Json) → String → Option Json
  | [], _ => none
  | (k, v) :: rest, key => if k = key then some v else lookupField rest key

/-- The runtime value of a property of a parsed JSON object:
`JsVal.undef` when the key is missing. -/
def objProp (fields : List (String × Json)) (key : String) : JsVal :=
  match lookupField fields key with
  | some v => JsVal.val v
  | none => JsVal.undef

/-- JavaScript property access `j.key`: `none` models a thrown TypeError
(access on null); otherwise the property value, `JsVal.undef` when the
key is missing or the value is not an object. -/
def jsProp : Json → String → Option JsVal
  | Json.null, _ => none
  | Json.obj fields, key => some (objProp fields key)
  | _, _ => some JsVal.undef

/-- JavaScript truthiness of a `string | null` value: null and the empty
string are falsy (`!question.candidateAnswer`). -/
def jsTruthy : Option String → Bool
  | none => false
  | some s => !(s == "")

/-- The placeholder pushed for an unanswered question. -/
def noAnswerPlaceholder (q : InterviewQuestion) : InterviewQuestion :=
  { q with score := JsVal.val (Json.num 0),
           explanation := JsVal.val (Json.str "No answer provided") }

/-- The placeholder pushed when the external call fails. -/
def errorPlaceholder (q : InterviewQuestion) : InterviewQuestion :=
  { q with score := JsVal.val (Json.num 0),
           explanation :=
             JsVal.val (Json.str "Error evaluating answer. Please try again later.") }

/-- The try block body for an answered question: on a successful call,
read `.score` and `.explanation` off the parsed value and push them; any
throw (request failure, JSON.parse failure, property access on null) is
caught and yields the error placeholder. -/
def evaluateAnswered (res : ModelResponse) (q : InterviewQuestion) :
    InterviewQuestion :=
  match res with
  | ModelResponse.netFail => errorPlaceholder q
  | ModelResponse.badJson => errorPlaceholder q
  | ModelResponse.parsed j =>
      match jsProp j "score", jsProp j "explanation" with
      | some s, some e => { q with score := s, explanation := e }
      | _, _ => errorPlaceholder q

/-- The body of the for-loop of `evaluateInterviewAnswers`, carrying the
index of the current question; returns the accumulated output list and
the list of question indices for which an external call was made. -/
def evalLoop (oracle : Nat → ModelResponse) :
    Nat → List InterviewQuestion → List InterviewQuestion × List Nat
  | _, [] => ([], [])
  | i, q :: rest =>
    let tail := evalLoop oracle (i + 1) rest
    if !(jsTruthy q.candidateAnswer) then
      (noAnswerPlaceholder q :: tail.1, tail.2)
    else
      (evaluateAnswered (oracle i) q :: tail.1, i :: tail.2)

/-- Result of `evaluateInterviewAnswers`: the thrown error or the output
list, together with the indices of questions for which an external model
call was issued. -/
structure EvalOutcome where
  result : Except String (List InterviewQuestion)
  calls : List Nat

/-- `evaluateInterviewAnswers` of src/functions/src/index.ts: throws when
`interviewQuestions` is null or empty, otherwise maps the loop over the
questions in order. -/
def evaluateInterviewAnswers (oracle : Nat → ModelResponse)
    (interviewData : InterviewDocModel) : EvalOutcome :=
  match interviewData.interviewQuestions with
  | none => ⟨Except.error "No interview questions found", []⟩
  | some qs =>
    if qs.length = 0 then
      ⟨Except.error "No interview questions found", []⟩
    else
      let out := evalLoop oracle 0 qs
      ⟨Except.ok out.1, out.2⟩

/-- What the loop pushes at one position, as a function of the call
outcome and the input question. -/
def processOne (res : ModelResponse) (q : InterviewQuestion) :
    InterviewQuestion :=
  if !(jsTruthy q.candidateAnswer) then noAnswerPlaceholder q
  else evaluateAnswered res q

/-! ### The callable handler `evaluateMockInterview` -/

/-- The hard-coded user id of the deployed handler
(src/functions/src/index.ts, line 54). -/
def hardCodedUserId : String := "EmlxiPsnXqT38FXVm4TCRywzvQq2"

/-- The fields of one Firestore partial update issued by the handler;
`none` means the field is not part of the update. -/
structure UpdateFields where
  analysed : Option Bool
  evaluationInProgress : Option Bool
  interviewQuestions : Option (List InterviewQuestion)

/-- One document store operation issued by the handler. -/
inductive StoreOp where
  | getDoc (collection : String) (docId : String) : StoreOp
  | update (collection : String) (docId : String) (fields : UpdateFields) : StoreOp

/-- The collection path an operation addresses. -/
def StoreOp.collection : StoreOp → String
  | StoreOp.getDoc c _ => c
  | StoreOp.update c _ _ => c

/-- Whether an operation is a partial update (as opposed to a read). -/
def StoreOp.isUpdate : StoreOp → Bool
  | StoreOp.getDoc _ _ => false
  | StoreOp.update _ _ _ => true

/-- The FCM message built by `sendEvaluationNotification`. -/
structure NotifMessage where
  type : String
  title : String
  message : String
  docId : String
  topic : String

/-- `sendEvaluationNotification`: builds the message and attempts the
send; a failed send is caught and only logged, so the function returns
the attempted message and unit in both cases. -/
def sendEvaluationNotification (sendSucceeds : Bool) (docId : String) :
    NotifMessage × Unit :=
  let message : NotifMessage :=
    { type := "interview_evaluation",
      title := "Interview Evaluation Ready",
      message := "Your mock interview has been evaluated! Tap to view results.",
      docId := docId,
      topic := "interview-evaluation-" ++ docId }
  match sendSucceeds with
  | true => (message, ())
  | false => (message, ())

/-- A categorized HttpsError surfaced to the caller. -/
structure HttpsErr where
  code : String
  message : String

/-- The success payload `{success: true, docId}`. -/
structure CallSuccess where
  success : Bool
  docId : String

/-- The request to the callable: the authenticated caller identity, when
present, and the data `{docId}`. -/
structure CallRequest where
  auth : Option String
  docId : String

/-- The observable outcome of one invocation: the value returned or the
error thrown, the trace of document store operations in order, and the
notification messages whose send was attempted. -/
structure HandlerOutput where
  result : Except HttpsErr CallSuccess
  storeOps : List StoreOp
  notifications : List NotifMessage

/-- `evaluateMockInterview` of src/functions/src/index.ts.  The store is
a collaborator mapping collection path and document id to the document
data, when the document exists.  Note that the not-found HttpsError is
thrown inside the try block and therefore caught by the blanket catch,
which rethrows the internal error. -/
def evaluateMockInterview (store : String → String → Option InterviewDocModel)
    (oracle : Nat → ModelResponse) (notifySucceeds : Bool)
    (request : CallRequest) : HandlerOutput :=
  match request.auth with
  | none =>
    ⟨Except.error ⟨"unauthenticated",
                   "The function must be called while authenticated."⟩, [], []⟩
  | some _ =>
    let userId := hardCodedUserId
    let docId := request.docId
    let docRef := "users/" ++ userId ++ "/archives"
    let getOp := StoreOp.getDoc docRef docId
    match store docRef docId with
    | none =>
      -- HttpsError("not-found") thrown, then caught by the catch block,
      -- which logs and throws HttpsError("internal").
      ⟨Except.error ⟨"internal", "Error evaluating interview"⟩, [getOp], []⟩
    | some interviewData =>
      let op1 := StoreOp.update docRef docId
        ⟨some false, some true, none⟩
      let eo := evaluateInterviewAnswers oracle interviewData
      match eo.result with
      | Except.error _ =>
        -- the throw of evaluateInterviewAnswers is caught by the catch
        -- block, which logs and throws HttpsError("internal").
        ⟨Except.error ⟨"internal", "Error evaluating interview"⟩,
         [getOp, op1], []⟩
      | Except.ok evaluatedQuestions =>
        let op2 := StoreOp.update docRef docId
          ⟨some true, some false, some evaluatedQuestions⟩
        let notif := (sendEvaluationNotification notifySucceeds docId).1
        ⟨Except.ok ⟨true, docId⟩, [getOp, op1, op2], [notif]⟩

/-! ### Lemmas about the evaluation loop -/

theorem evalLoop_fst_length (oracle : Nat → ModelResponse) :
    ∀ (qs : List InterviewQuestion) (i0 : Nat),
      ((evalLoop oracle i0 qs).1).length = qs.length := by
  intro qs
  induction qs with
  | nil => intro i0; simp [evalLoop]
  | cons q rest ih =>
    intro i0
    cases hb : jsTruthy q.candidateAnswer <;> simp [evalLoop, hb, ih]

theorem evalLoop_fst_getElem? (oracle : Nat → ModelResponse) :
    ∀ (qs : List InterviewQuestion) (i0 k : Nat),
      ((evalLoop oracle i0 qs).1)[k]? =
        (qs[k]?).map (processOne (oracle (i0 + k))) := by
  intro qs
  induction qs with
  | nil => intro i0 k; simp [evalLoop]
  | cons q rest ih =>
    intro i0 k
    cases k with
    | zero =>
      cases hb : jsTruthy q.candidateAnswer <;>
        simp [evalLoop, processOne, hb]
    | succ k =>
      have harith : i0 + 1 + k = i0 + (k + 1) := by omega
      cases hb : jsTruthy q.candidateAnswer <;>
        simp [evalLoop, hb, ih (i0 + 1) k, harith]

theorem evalLoop_mem_calls (oracle : Nat → ModelResponse) :
    ∀ (qs : List InterviewQuestion) (i0 m : Nat),
      m ∈ (evalLoop oracle i0 qs).2 →
      ∃ k q, qs[k]? = some q ∧ jsTruthy q.candidateAnswer = true ∧
        m = i0 + k := by
  intro qs
  induction qs with
  | nil => intro i0 m h; simp [evalLoop] at h
  | cons q rest ih =>
    intro i0 m h
    cases hb : jsTruthy q.candidateAnswer with
    | false =>
      rw [show (evalLoop oracle i0 (q :: rest)).2 =
            (evalLoop oracle (i0 + 1) rest).2 by simp [evalLoop, hb]] at h
      obtain ⟨k, q', hget, htr, hm⟩ := ih (i0 + 1) m h
      exact ⟨k + 1, q', by simpa using hget, htr, by omega⟩
    | true =>
      rw [show (evalLoop oracle i0 (q :: rest)).2 =
            i0 :: (evalLoop oracle (i0 + 1) rest).2 by simp [evalLoop, hb]] at h
      rcases List.mem_cons.mp h with h | h
      · exact ⟨0, q, by simp, hb, by omega⟩
      · obtain ⟨k, q', hget, htr, hm⟩ := ih (i0 + 1) m h
        exact ⟨k + 1, q', by simpa using hget, htr, by omega⟩

theorem processOne_preserves (res : ModelResponse) (q : InterviewQuestion) :
    (processOne res q).difficulty = q.difficulty ∧
    (processOne res q).keywords = q.keywords ∧
    (processOne res q).question = q.question ∧
    (processOne res q).topic = q.topic ∧
    (processOne res q).candidateAnswer = q.candidateAnswer := by
  unfold processOne
  cases jsTruthy q.candidateAnswer with
  | false => simp [noAnswerPlaceholder]
  | true =>
    cases res with
    | netFail => simp [evaluateAnswered, errorPlaceholder]
    | badJson => simp [evaluateAnswered, errorPlaceholder]
    | parsed j =>
      rcases hs : jsProp j "score" with _ | s <;>
        rcases he : jsProp j "explanation" with _ | e <;>
          simp [evaluateAnswered, errorPlaceholder, hs, he]

theorem processOne_falsy (res : ModelResponse) (q : InterviewQuestion)
    (h : jsTruthy q.candidateAnswer = false) :
    processOne res q = noAnswerPlaceholder q := by
  simp [processOne, h]

theorem processOne_truthy (res : ModelResponse) (q : InterviewQuestion)
    (h : jsTruthy q.candidateAnswer = true) :
    processOne res q = evaluateAnswered res q := by
  simp [processOne, h]

theorem evaluateInterviewAnswers_ok (oracle : Nat → ModelResponse)
    (d : InterviewDocModel) (qs : List InterviewQuestion)
    (h : d.interviewQuestions = some qs) (hne : qs ≠ []) :
    evaluateInterviewAnswers oracle d =
      ⟨Except.ok (evalLoop oracle 0 qs).1, (evalLoop oracle 0 qs).2⟩ := by
  have h0 : ¬ qs.length = 0 := fun hc => hne (List.length_eq_zero.mp hc)
  simp [evaluateInterviewAnswers, h, h0]

/-- Shared spec for the two falsy-answer cases (null and empty string):
the item gets the no-answer placeholder and no call is issued for its
index. -/
theorem evalAnswers_falsy_spec (oracle : Nat → ModelResponse)
    (d : InterviewDocModel) (qs : List InterviewQuestion) (i : Nat)
    (q : InterviewQuestion)
    (hqs : d.interviewQuestions = some qs) (hq : qs[i]? = some q)
    (hfalse : jsTruthy q.candidateAnswer = false) :
    ∃ out, (evaluateInterviewAnswers oracle d).result = Except.ok out ∧
      out[i]? = some (noAnswerPlaceholder q) ∧
      i ∉ (evaluateInterviewAnswers oracle d).calls := by
  have hne : qs ≠ [] := by intro e; subst e; simp at hq
  have heq := evaluateInterviewAnswers_ok oracle d qs hqs hne
  refine ⟨(evalLoop oracle 0 qs).1, by rw [heq], ?_, ?_⟩
  · rw [evalLoop_fst_getElem?, hq]
    simp [processOne_falsy _ _ hfalse]
  · rw [heq]
    intro hmem
    obtain ⟨k, q', hget, htr, hm⟩ := evalLoop_mem_calls oracle qs 0 i hmem
    have hki : k = i := by omega
    subst hki
    rw [hq] at hget
    injection hget with hget
    subst hget
    rw [hfalse] at htr
    simp at htr

/-! ### Sample data for witnesses -/

def sampleQ1 : InterviewQuestion :=
  { difficulty := "easy", keywords := ["hash", "map"],
    question := "What is a hash map?", topic := "data structures",
    candidateAnswer := some "A key-value store",
    score := JsVal.val (Json.num 0), explanation := JsVal.val (Json.str "") }

def sampleQ2 : InterviewQuestion :=
  { difficulty := "medium", keywords := ["tree"],
    question := "What is a B-tree?", topic := "data structures",
    candidateAnswer := none,
    score := JsVal.val (Json.num 0), explanation := JsVal.val (Json.str "") }

def sampleQ3 : InterviewQuestion :=
  { sampleQ2 with candidateAnswer := some "", question := "What is a trie?" }

def sampleDoc : InterviewDocModel :=
  { title := "Mock interview", questionsCount := 3, domain := some "backend",
    topics := "data structures", difficulty := "medium", jobDescription := "",
    resume := "", date := "2025-01-01", preciseTime := "12:00",
    analysed := false, evaludationId := none,
    interviewQuestions := some [sampleQ1, sampleQ2, sampleQ3], type := "mock" }

def sampleOracle : Nat → ModelResponse := fun _ =>
  ModelResponse.parsed (Json.obj
    [("score", Json.num 4),
     ("explanation", Json.str "Good, could mention collisions")])

def emptyDoc : InterviewDocModel :=
  { sampleDoc with interviewQuestions := none }

/-! ### Claims -/

/-- C1: for every document whose interviewQuestions is a non-empty list,
evaluate returns a list of the same length and order, where the item at
each position is the input item at that position with only score and
explanation overwritten and every other field (difficulty, keywords,
question, topic, candidateAnswer) unchanged. -/
theorem c1_output_parallel_to_input (oracle : Nat → ModelResponse)
    (d : InterviewDocModel) (qs : List InterviewQuestion)
    (h : d.interviewQuestions = some qs) (hne : qs ≠ []) :
    ∃ out, (evaluateInterviewAnswers oracle d).result = Except.ok out ∧
      out.length = qs.length ∧
      ∀ (i : Nat) (q : InterviewQuestion), qs[i]? = some q →
        ∃ (r : InterviewQuestion), out[i]? = some r ∧
        r.difficulty = q.difficulty ∧ r.keywords = q.keywords ∧
        r.question = q.question ∧ r.topic = q.topic ∧
        r.candidateAnswer = q.candidateAnswer := by
  have heq := evaluateInterviewAnswers_ok oracle d qs h hne
  refine ⟨(evalLoop oracle 0 qs).1, by rw [heq],
          evalLoop_fst_length oracle qs 0, ?_⟩
  intro i q hq
  refine ⟨processOne (oracle (0 + i)) q, ?_, ?_⟩
  · rw [evalLoop_fst_getElem?, hq]; rfl
  · exact processOne_preserves (oracle (0 + i)) q

theorem c1_witness :
    sampleDoc.interviewQuestions = some [sampleQ1, sampleQ2, sampleQ3] ∧
    ([sampleQ1, sampleQ2, sampleQ3] : List InterviewQuestion) ≠ [] ∧
    (∃ out,
      (evaluateInterviewAnswers sampleOracle sampleDoc).result =
        Except.ok out ∧
      out.length = ([sampleQ1, sampleQ2, sampleQ3] :
        List InterviewQuestion).length ∧
      ∀ (i : Nat) (q : InterviewQuestion), ([sampleQ1, sampleQ2, sampleQ3] :
          List InterviewQuestion)[i]? = some q →
        ∃ (r : InterviewQuestion), out[i]? = some r ∧
          r.difficulty = q.difficulty ∧ r.keywords = q.keywords ∧
          r.question = q.question ∧ r.topic = q.topic ∧
          r.candidateAnswer = q.candidateAnswer) :=
  ⟨rfl, List.cons_ne_nil _ _,
    c1_output_parallel_to_input sampleOracle sampleDoc _ rfl
      (List.cons_ne_nil _ _)⟩

/-- C3: for every question whose candidateAnswer is absent (null or
missing), evaluate appends at that position a copy of the question with
score 0 and explanation "No answer provided", and makes no external model
call for that item. -/
theorem c3_absent_answer_placeholder (oracle : Nat → ModelResponse)
    (d : InterviewDocModel) (qs : List InterviewQuestion) (i : Nat)
    (q : InterviewQuestion)
    (hqs : d.interviewQuestions = some qs) (hq : qs[i]? = some q)
    (hca : q.candidateAnswer = none) :
    ∃ out, (evaluateInterviewAnswers oracle d).result = Except.ok out ∧
      out[i]? = some (noAnswerPlaceholder q) ∧
      i ∉ (evaluateInterviewAnswers oracle d).calls :=
  evalAnswers_falsy_spec oracle d qs i q hqs hq (by simp [jsTruthy, hca])

theorem c3_witness :
    sampleDoc.interviewQuestions = some [sampleQ1, sampleQ2, sampleQ3] ∧
    ([sampleQ1, sampleQ2, sampleQ3] :
      List InterviewQuestion)[1]? = some sampleQ2 ∧
    sampleQ2.candidateAnswer = none ∧
    (∃ out,
      (evaluateInterviewAnswers sampleOracle sampleDoc).result =
        Except.ok out ∧
      out[1]? = some (noAnswerPlaceholder sampleQ2) ∧
      1 ∉ (evaluateInterviewAnswers sampleOracle sampleDoc).calls) :=
  ⟨rfl, rfl, rfl,
    c3_absent_answer_placeholder sampleOracle sampleDoc _ 1 sampleQ2
      rfl rfl rfl⟩

/-- C4: for every document whose interviewQuestions is absent or has zero
length, evaluate fails with the empty-input error and makes no external
model calls. -/
theorem c4_empty_input_error (oracle : Nat → ModelResponse)
    (d : InterviewDocModel)
    (h : d.interviewQuestions = none ∨ d.interviewQuestions = some []) :
    (evaluateInterviewAnswers oracle d).result =
      Except.error "No interview questions found" ∧
    (evaluateInterviewAnswers oracle d).calls = [] := by
  rcases h with h | h <;> simp [evaluateInterviewAnswers, h]

theorem c4_witness :
    (emptyDoc.interviewQuestions = none ∨
      emptyDoc.interviewQuestions = some []) ∧
    ((evaluateInterviewAnswers sampleOracle emptyDoc).result =
        Except.error "No interview questions found" ∧
      (evaluateInterviewAnswers sampleOracle emptyDoc).calls = []) :=
  ⟨Or.inl rfl, c4_empty_input_error sampleOracle emptyDoc (Or.inl rfl)⟩

/-- C9: a candidateAnswer equal to the empty string (present but "") is
treated exactly like an absent answer: the item gets the no-answer
placeholder and no external model call is made, because the unanswered
check is a JavaScript falsiness test. -/
theorem c9_empty_string_like_absent (oracle : Nat → ModelResponse)
    (d : InterviewDocModel) (qs : List InterviewQuestion) (i : Nat)
    (q : InterviewQuestion)
    (hqs : d.interviewQuestions = some qs) (hq : qs[i]? = some q)
    (hca : q.candidateAnswer = some "") :
    ∃ out, (evaluateInterviewAnswers oracle d).result = Except.ok out ∧
      out[i]? = some (noAnswerPlaceholder q) ∧
      i ∉ (evaluateInterviewAnswers oracle d).calls :=
  evalAnswers_falsy_spec oracle d qs i q hqs hq (by simp [jsTruthy, hca])

theorem c9_witness :
    sampleDoc.interviewQuestions = some [sampleQ1, sampleQ2, sampleQ3] ∧
    ([sampleQ1, sampleQ2, sampleQ3] :
      List InterviewQuestion)[2]? = some sampleQ3 ∧
    sampleQ3.candidateAnswer = some "" ∧
    (∃ out,
      (evaluateInterviewAnswers sampleOracle sampleDoc).result =
        Except.ok out ∧
      out[2]? = some (noAnswerPlaceholder sampleQ3) ∧
      2 ∉ (evaluateInterviewAnswers sampleOracle sampleDoc).calls) :=
  ⟨rfl, rfl, rfl,
    c9_empty_string_like_absent sampleOracle sampleDoc _ 2 sampleQ3
      rfl rfl rfl⟩

/-- C2 (amended): for every question for which a call is made, any
failure of the external model call or of parsing its response (network
error, non-2xx status, malformed JSON) yields for that position the
original question with score 0 and the fixed error explanation; such a
failure never aborts the batch and never alters any other position. -/
theorem c2_failure_isolated (oracle1 oracle2 : Nat → ModelResponse)
    (d : InterviewDocModel) (qs : List InterviewQuestion) (i : Nat)
    (q : InterviewQuestion)
    (hqs : d.interviewQuestions = some qs)
    (hq : qs[i]? = some q)
    (htr : jsTruthy q.candidateAnswer = true)
    (hfail : oracle1 i = ModelResponse.netFail ∨
             oracle1 i = ModelResponse.badJson)
    (hagree : ∀ j, j ≠ i → oracle1 j = oracle2 j) :
    ∃ out1 out2,
      (evaluateInterviewAnswers oracle1 d).result = Except.ok out1 ∧
      (evaluateInterviewAnswers oracle2 d).result = Except.ok out2 ∧
      out1[i]? = some (errorPlaceholder q) ∧
      ∀ j, j ≠ i → out1[j]? = out2[j]? := by
  have hne : qs ≠ [] := by intro e; subst e; simp at hq
  have heq1 := evaluateInterviewAnswers_ok oracle1 d qs hqs hne
  have heq2 := evaluateInterviewAnswers_ok oracle2 d qs hqs hne
  refine ⟨(evalLoop oracle1 0 qs).1, (evalLoop oracle2 0 qs).1,
    by rw [heq1], by rw [heq2], ?_, ?_⟩
  · rw [evalLoop_fst_getElem?, hq]
    have hstep : processOne (oracle1 i) q = errorPlaceholder q := by
      rw [processOne_truthy _ _ htr]
      rcases hfail with hf | hf <;> rw [hf] <;> rfl
    simp [hstep]
  · intro j hj
    rw [evalLoop_fst_getElem?, evalLoop_fst_getElem?,
        Nat.zero_add, hagree j hj]

def c2FailOracle : Nat → ModelResponse := fun _ => ModelResponse.netFail

def c2OkOracle : Nat → ModelResponse := fun n =>
  if n = 0 then sampleOracle 0 else ModelResponse.netFail

theorem c2_witness :
    sampleDoc.interviewQuestions = some [sampleQ1, sampleQ2, sampleQ3] ∧
    ([sampleQ1, sampleQ2, sampleQ3] :
      List InterviewQuestion)[0]? = some sampleQ1 ∧
    jsTruthy sampleQ1.candidateAnswer = true ∧
    (c2FailOracle 0 = ModelResponse.netFail ∨
      c2FailOracle 0 = ModelResponse.badJson) ∧
    (∀ j, j ≠ 0 → c2FailOracle j = c2OkOracle j) ∧
    (∃ out1 out2,
      (evaluateInterviewAnswers c2FailOracle sampleDoc).result =
        Except.ok out1 ∧
      (evaluateInterviewAnswers c2OkOracle sampleDoc).result =
        Except.ok out2 ∧
      out1[0]? = some (errorPlaceholder sampleQ1) ∧
      ∀ j, j ≠ 0 → out1[j]? = out2[j]?) :=
  ⟨rfl, rfl, rfl, Or.inl rfl,
    fun j hj => by simp [c2FailOracle, c2OkOracle, hj],
    c2_failure_isolated c2FailOracle c2OkOracle sampleDoc _ 0 sampleQ1
      rfl rfl rfl (Or.inl rfl)
      (fun j hj => by simp [c2FailOracle, c2OkOracle, hj])⟩

def c2MissingKeyOracle : Nat → ModelResponse := fun _ =>
  ModelResponse.parsed (Json.obj [("explanation", Json.str "ok")])

def c2Doc : InterviewDocModel :=
  { sampleDoc with interviewQuestions := some [sampleQ1] }

/-- C2 counterexample: a response that is valid JSON but lacks the score
key is not a failure for the code; the undefined score and the returned
explanation are copied through instead of the claimed score 0 and fixed
error explanation. -/
theorem c2_counterexample :
    (evaluateInterviewAnswers c2MissingKeyOracle c2Doc).result =
      Except.ok [{ sampleQ1 with
        score := JsVal.undef,
        explanation := JsVal.val (Json.str "ok") }] ∧
    JsVal.undef ≠ JsVal.val (Json.num 0) ∧
    JsVal.val (Json.str "ok") ≠
      JsVal.val (Json.str
        "Error evaluating answer. Please try again later.") := by
  refine ⟨rfl, fun h => JsVal.noConfusion h, ?_⟩
  intro h
  injection h with h
  injection h with h
  exact absurd h (by decide)

/-- C5: for an answered question whose model response parses to a JSON
object, the output score and explanation are exactly the score and
explanation properties of that object, with no range or type validation:
any value, including one outside 0-5 or of the wrong type, is copied
through unchanged (a missing key copies undefined). -/
theorem c5_parsed_object_copied (oracle : Nat → ModelResponse)
    (d : InterviewDocModel) (qs : List InterviewQuestion) (i : Nat)
    (q : InterviewQuestion) (fields : List (String × Json))
    (hqs : d.interviewQuestions = some qs) (hq : qs[i]? = some q)
    (htr : jsTruthy q.candidateAnswer = true)
    (hres : oracle i = ModelResponse.parsed (Json.obj fields)) :
    ∃ out, (evaluateInterviewAnswers oracle d).result = Except.ok out ∧
      out[i]? = some { q with score := objProp fields "score",
                              explanation := objProp fields "explanation" } := by
  have hne : qs ≠ [] := by intro e; subst e; simp at hq
  have heq := evaluateInterviewAnswers_ok oracle d qs hqs hne
  refine ⟨(evalLoop oracle 0 qs).1, by rw [heq], ?_⟩
  rw [evalLoop_fst_getElem?, hq]
  have hstep : processOne (oracle i) q =
      { q with score := objProp fields "score",
               explanation := objProp fields "explanation" } := by
    rw [processOne_truthy _ _ htr, hres]
    rfl
  simp [hstep]

def c5Oracle : Nat → ModelResponse := fun _ =>
  ModelResponse.parsed (Json.obj
    [("score", Json.num 99), ("explanation", Json.bool true)])

theorem c5_witness :
    sampleDoc.interviewQuestions = some [sampleQ1, sampleQ2, sampleQ3] ∧
    ([sampleQ1, sampleQ2, sampleQ3] :
      List InterviewQuestion)[0]? = some sampleQ1 ∧
    jsTruthy sampleQ1.candidateAnswer = true ∧
    c5Oracle 0 = ModelResponse.parsed (Json.obj
      [("score", Json.num 99), ("explanation", Json.bool true)]) ∧
    (∃ out,
      (evaluateInterviewAnswers c5Oracle sampleDoc).result =
        Except.ok out ∧
      out[0]? = some { sampleQ1 with
        score := objProp
          [("score", Json.num 99), ("explanation", Json.bool true)] "score",
        explanation := objProp
          [("score", Json.num 99), ("explanation", Json.bool true)]
          "explanation" }) :=
  ⟨rfl, rfl, rfl, rfl,
    c5_parsed_object_copied c5Oracle sampleDoc _ 0 sampleQ1 _
      rfl rfl rfl rfl⟩

/-! ### Claims about the callable handler -/

def c6Store : String → String → Option InterviewDocModel := fun _ _ => none

/-- C6: with an authenticated caller and a docId whose document does not
exist, the deployed handler surfaces the internal error, not the
not-found error: the not-found HttpsError is thrown inside the try block
and the blanket catch rethrows internal, contrary to the claim. -/
theorem c6_missing_doc_surfaces_internal :
    (evaluateMockInterview c6Store sampleOracle true
      ⟨some "caller-a", "doc-1"⟩).result =
      Except.error ⟨"internal", "Error evaluating interview"⟩ ∧
    (evaluateMockInterview c6Store sampleOracle true
      ⟨some "caller-a", "doc-1"⟩).result ≠
      Except.error ⟨"not-found", "Interview document not found"⟩ := by
  refine ⟨rfl, ?_⟩
  intro h
  rw [show (evaluateMockInterview c6Store sampleOracle true
      ⟨some "caller-a", "doc-1"⟩).result =
      Except.error ⟨"internal", "Error evaluating interview"⟩ from rfl] at h
  injection h with h
  injection h with h1 h2
  exact absurd h1 (by decide)

/-- C7 (amended): every invocation that returns the success result reads
the document once and issues exactly two partial updates, in order:
first analysed false with evaluationInProgress true, then the evaluated
questions with analysed true and evaluationInProgress false; failed
invocations issue fewer operations. -/
theorem c7_success_two_updates
    (store : String → String → Option InterviewDocModel)
    (oracle : Nat → ModelResponse) (s : Bool) (req : CallRequest)
    (payload : CallSuccess)
    (h : (evaluateMockInterview store oracle s req).result =
          Except.ok payload) :
    ∃ d out,
      store ("users/" ++ hardCodedUserId ++ "/archives") req.docId =
        some d ∧
      (evaluateInterviewAnswers oracle d).result = Except.ok out ∧
      (evaluateMockInterview store oracle s req).storeOps =
        [StoreOp.getDoc ("users/" ++ hardCodedUserId ++ "/archives")
           req.docId,
         StoreOp.update ("users/" ++ hardCodedUserId ++ "/archives")
           req.docId ⟨some false, some true, none⟩,
         StoreOp.update ("users/" ++ hardCodedUserId ++ "/archives")
           req.docId ⟨some true, some false, some out⟩] := by
  obtain ⟨auth, docId⟩ := req
  cases auth with
  | none => simp [evaluateMockInterview] at h
  | some u =>
    cases hstore : store ("users/" ++ hardCodedUserId ++ "/archives")
        docId with
    | none => simp [evaluateMockInterview, hstore] at h
    | some dd =>
      cases heo : (evaluateInterviewAnswers oracle dd).result with
      | error e => simp [evaluateMockInterview, hstore, heo] at h
      | ok out =>
        exact ⟨dd, out, rfl, heo,
          by simp [evaluateMockInterview, hstore, heo]⟩

def c7SuccessStore : String → String → Option InterviewDocModel :=
  fun _ _ => some sampleDoc

theorem c7_witness :
    (evaluateMockInterview c7SuccessStore sampleOracle true
        ⟨some "caller-a", "doc-1"⟩).result =
      Except.ok ⟨true, "doc-1"⟩ ∧
    (∃ d out,
      c7SuccessStore ("users/" ++ hardCodedUserId ++ "/archives")
        "doc-1" = some d ∧
      (evaluateInterviewAnswers sampleOracle d).result = Except.ok out ∧
      (evaluateMockInterview c7SuccessStore sampleOracle true
        ⟨some "caller-a", "doc-1"⟩).storeOps =
        [StoreOp.getDoc ("users/" ++ hardCodedUserId ++ "/archives")
           "doc-1",
         StoreOp.update ("users/" ++ hardCodedUserId ++ "/archives")
           "doc-1" ⟨some false, some true, none⟩,
         StoreOp.update ("users/" ++ hardCodedUserId ++ "/archives")
           "doc-1" ⟨some true, some false, some out⟩]) :=
  ⟨rfl, c7_success_two_updates c7SuccessStore sampleOracle true
    ⟨some "caller-a", "doc-1"⟩ ⟨true, "doc-1"⟩ rfl⟩

def c7EmptyStore : String → String → Option InterviewDocModel :=
  fun _ _ => some { sampleDoc with interviewQuestions := some [] }

/-- C7 counterexample: an invocation that fails mid-way because the
stored question list is empty issues only one partial update, so it is
not the case that each invocation issues exactly two. -/
theorem c7_counterexample :
    ((evaluateMockInterview c7EmptyStore sampleOracle true
        ⟨some "caller-a", "doc-1"⟩).storeOps.countP
      StoreOp.isUpdate) ≠ 2 := by
  decide

/-- C8: the outcome of the notification send is invisible: an invocation
in which the send fails returns the same result, issues the same store
operations, and attempts the same notifications as one in which it
succeeds. -/
theorem c8_notification_failure_invisible
    (store : String → String → Option InterviewDocModel)
    (oracle : Nat → ModelResponse) (req : CallRequest) (s1 s2 : Bool) :
    evaluateMockInterview store oracle s1 req =
      evaluateMockInterview store oracle s2 req := by
  cases s1 <;> cases s2 <;> rfl

/-- C10: the store path is built from the hard-coded user id, so two
distinct authenticated callers invoking with the same docId observe
identical behaviour (results, store operations, notifications), and
every store operation addresses the hard-coded users path. -/
theorem c10_caller_identity_irrelevant
    (store : String → String → Option InterviewDocModel)
    (oracle : Nat → ModelResponse) (s : Bool) (u1 u2 docId : String) :
    evaluateMockInterview store oracle s ⟨some u1, docId⟩ =
      evaluateMockInterview store oracle s ⟨some u2, docId⟩ ∧
    ((evaluateMockInterview store oracle s ⟨some u1, docId⟩).storeOps.all
      (fun op => op.collection ==
        "users/" ++ hardCodedUserId ++ "/archives")) = true := by
  refine ⟨rfl, ?_⟩
  cases hstore : store ("users/" ++ hardCodedUserId ++ "/archives")
      docId with
  | none => simp [evaluateMockInterview, hstore, StoreOp.collection]
  | some dd =>
    cases heo : (evaluateInterviewAnswers oracle dd).result with
    | error e =>
      simp [evaluateMockInterview, hstore, heo, StoreOp.collection]
    | ok out =>
      simp [evaluateMockInterview, hstore, heo, StoreOp.collection]
